import Mathlib

/-!
Verification of the fixture corpus of this repository: three intentionally
broken source files (a build-failure fixture, a lint-failure fixture and a
test-failure fixture) meant to make an external build tool, linter and test
runner fail in a predicted way.

The development embeds, from the sources:
  * the literal text lines of each fixture file;
  * the test module of `tests/utils/test-fail.test.js` (its two test cases
    and the `toBe` assertion);
  * the statements of `src/utils/test-lint-fail.js` as a small JavaScript
    fragment with an evaluation semantics and a scope analysis;
  * the import and usage structure of `src/components/test-build-fail.js`;
  * a corpus-level model of the three external tool checks (module
    resolution, undeclared-reference lint, assertion run).

Parts of the project that are referenced by the fixtures but are not among
the provided sources (the collaborator module `src/utils/normal-utils`, the
`package.json` dependency set, the tool-provided global names) are modelled
from the spec and marked as such in their doc comments.
-/

/-- The literal lines of the fixture file `src/components/test-build-fail.js`. -/
def testBuildFailLines : List String :=
  [ "// 测试文件：src/components/test-build-fail.js"
  , "// 失败场景：构建验证失败（导入不存在的依赖包，构建工具无法解析）"
  , "// 说明：导入 \"non-existent-lib\"（虚构依赖），项目未安装该包，构建时会报 \"Module not found\" 错误"
  , ""
  , "// 核心错误点：导入不存在的依赖包（项目 package.json 中无此依赖）"
  , "import NonExistentComponent from \"non-existent-lib\"; // 虚构依赖，构建时无法找到"
  , "import \x7b useState \x7d from \"react\"; // 正常依赖（对比用，不影响错误触发）"
  , ""
  , "// 模拟React组件（真实项目结构）"
  , "const TestBuildFailComponent = () => \x7b"
  , "  const [count, setCount] = useState(0);"
  , ""
  , "  return ("
  , "    <div className=\"test-component\">"
  , "      <h2>测试构建失败组件</h2>"
  , "      <p>点击次数：\x7bcount\x7d</p>"
  , "      <button onClick=\x7b() => setCount(count + 1)\x7d>增加计数</button>"
  , "      "
  , "      \x7b/* 核心错误点：使用不存在的依赖组件，加剧构建失败 */\x7d"
  , "      <NonExistentComponent "
  , "        title=\"虚构组件\" "
  , "        content=\"此组件来自不存在的依赖包\" "
  , "      />"
  , "    </div>"
  , "  );"
  , "\x7d;"
  , ""
  , "export default TestBuildFailComponent;"
  ]

/-- The literal lines of the fixture file `src/utils/test-lint-fail.js`. -/
def testLintFailLines : List String :=
  [ "// 测试文件：src/utils/test-lint-fail.js"
  , "// 失败场景：ESLint 代码质量检查失败（触发 no-undef 规则：使用未声明的变量）"
  , "// 说明：undefinedVar 未通过 let/const/var 声明，ESLint 会报 \"\x27undefinedVar\x27 is not defined\" 错误"
  , ""
  , "// 故意使用未声明变量，触发ESLint错误"
  , "console.log(\"测试ESLint错误：未声明变量调用\");"
  , "console.log(undefinedVar); // 核心错误点：undefinedVar 未声明"
  , ""
  , "// 其他正常代码（仅为模拟真实文件结构，不影响错误触发）"
  , "export const normalUtils = () => \x7b"
  , "  const validVar = \"正常变量\";"
  , "  return validVar;"
  , "\x7d;"
  ]

/-- The literal lines of the fixture file `tests/utils/test-fail.test.js`. -/
def testFailTestLines : List String :=
  [ "// 测试文件：tests/utils/test-fail.test.js"
  , "// 失败场景：Jest 测试执行失败（断言结果不匹配）"
  , "// 说明：sum(1,1) 实际结果为 2，但断言为 3，触发测试失败"
  , ""
  , "// 导入待测试的工具函数（模拟真实项目结构）"
  , "import \x7b sum \x7d from \"../../src/utils/normal-utils\"; // 假设项目有正常工具函数文件"
  , ""
  , "// 测试用例1：正常场景（仅为对比，不影响失败结果）"
  , "test(\"sum(2,3) 应返回 5（正常用例）\", () => \x7b"
  , "  expect(sum(2, 3)).toBe(5); // 此用例正常通过"
  , "\x7d);"
  , ""
  , "// 测试用例2：失败场景（核心错误用例）"
  , "test(\"sum(1,1) 故意断言为 3（触发测试失败）\", () => \x7b"
  , "  const result = sum(1, 1); // 实际结果：2"
  , "  expect(result).toBe(3); // 核心错误点：断言结果与实际结果不匹配，Jest 报 \"Expected: 3, Received: 2\""
  , "\x7d);"
  , ""
  , "// 工具函数模拟（若项目无 normal-utils.js，可直接在此定义，避免导入错误）"
  , "// export const sum = (a, b) => a + b;"
  ]

/-- The three fixture files of the corpus, as lists of literal text lines. -/
def corpusFiles : List (List String) :=
  [testBuildFailLines, testLintFailLines, testFailTestLines]

/-- Modelled from the spec: the collaborator module `src/utils/normal-utils` is
imported by `tests/utils/test-fail.test.js` but is not among the provided
sources.  Its spec contract is `sum(a: number, b: number) -> number`, pure
numeric addition with no side effects. -/
def sum (a b : Int) : Int := a + b

/-- A Jest test case of the test-failure fixture: its title, the value the
test body actually computes, and the value asserted with `toBe`. -/
structure TestCase where
  title : String
  actual : Int
  expected : Int
deriving DecidableEq

/-- Test case 1 of `tests/utils/test-fail.test.js` (lines 9-11):
`expect(sum(2, 3)).toBe(5)`. -/
def case1 : TestCase := ⟨"sum(2,3) 应返回 5（正常用例）", sum 2 3, 5⟩

/-- Test case 2 of `tests/utils/test-fail.test.js` (lines 14-17):
`const result = sum(1, 1); expect(result).toBe(3)`. -/
def case2 : TestCase := ⟨"sum(1,1) 故意断言为 3（触发测试失败）", sum 1 1, 3⟩

/-- The two test cases declared by the test-failure fixture, in file order. -/
def testFailCases : List TestCase := [case1, case2]

/-- Jest's `toBe` matcher on numbers: strict equality of received and
expected value. -/
def toBe (received expected : Int) : Bool := received == expected

/-- Run one test case: it passes exactly when its `toBe` assertion holds. -/
def runCase (tc : TestCase) : Bool := toBe tc.actual tc.expected

/-- Run a test module: every declared case is run independently and reported
(`true` = pass, `false` = fail). -/
def runTestModule (cases : List TestCase) : List Bool := cases.map runCase

/-- The mismatch diagnostic of a test case: `some (expected, received)` when
the case fails, `none` (no mismatch) when it passes. -/
def caseReport (tc : TestCase) : Option (Int × Int) :=
  if runCase tc then none else some (tc.expected, tc.actual)

/-- Errors raised by evaluating a fixture as a JavaScript module. -/
inductive JSError where
  | referenceError (name : String)
deriving DecidableEq

/-- An arrow function whose body is a sequence of string-literal `const`
declarations followed by `return` of an identifier — the shape of
`normalUtils` in `src/utils/test-lint-fail.js` (lines 10-13). -/
structure ArrowFn where
  localDecls : List (String × String)
  returnVar : String
deriving DecidableEq

/-- Runtime values of the JavaScript fragment. -/
inductive JSValue where
  | str (s : String)
  | closure (fn : ArrowFn)
  | hostConsole
deriving DecidableEq

/-- Expressions occurring in `src/utils/test-lint-fail.js`: string literals,
identifier references, and arrow functions. -/
inductive JSExpr where
  | strLit (s : String)
  | ident (x : String)
  | arrow (fn : ArrowFn)
deriving DecidableEq

/-- Module-level statements occurring in `src/utils/test-lint-fail.js`:
a method call `obj.method(arg);` and `export const x = e;`. -/
inductive JSStmt where
  | callStmt (obj : String) (method : String) (arg : JSExpr)
  | exportConst (x : String) (e : JSExpr)
deriving DecidableEq

/-- A JavaScript environment: bindings from names to values, innermost first. -/
abbrev JSEnv := List (String × JSValue)

/-- Look a name up in an environment (innermost binding wins). -/
def lookupVar : JSEnv → String → Option JSValue
  | [], _ => none
  | (k, v) :: rest, x => if k == x then some v else lookupVar rest x

/-- The local bindings an arrow function's `const` declarations create. -/
def bindLocals (fn : ArrowFn) : JSEnv :=
  fn.localDecls.map (fun p => (p.fst, JSValue.str p.snd))

/-- Call an arrow function in an outer environment: bind its locals, then
return the value of its `return` identifier (or raise a `ReferenceError`). -/
def callArrow (env : JSEnv) (fn : ArrowFn) : Except JSError JSValue :=
  match lookupVar (bindLocals fn ++ env) fn.returnVar with
  | some v => Except.ok v
  | none => Except.error (JSError.referenceError fn.returnVar)

/-- Evaluate an expression: literals and arrows always succeed, an identifier
raises `ReferenceError` when no binding is in scope. -/
def evalJSExpr (env : JSEnv) : JSExpr → Except JSError JSValue
  | JSExpr.strLit s => Except.ok (JSValue.str s)
  | JSExpr.ident x =>
    match lookupVar env x with
    | some v => Except.ok v
    | none => Except.error (JSError.referenceError x)
  | JSExpr.arrow fn => Except.ok (JSValue.closure fn)

/-- Evaluate one module-level statement, producing the updated environment. -/
def evalJSStmt (env : JSEnv) : JSStmt → Except JSError JSEnv
  | JSStmt.callStmt obj _ arg =>
    match lookupVar env obj with
    | none => Except.error (JSError.referenceError obj)
    | some _ =>
      match evalJSExpr env arg with
      | Except.ok _ => Except.ok env
      | Except.error e => Except.error e
  | JSStmt.exportConst x e =>
    match evalJSExpr env e with
    | Except.ok v => Except.ok ((x, v) :: env)
    | Except.error e => Except.error e

/-- Evaluate a module's statements in order; the first error aborts the run. -/
def evalStmts (env : JSEnv) : List JSStmt → Except JSError JSEnv
  | [] => Except.ok env
  | s :: rest =>
    match evalJSStmt env s with
    | Except.ok env2 => evalStmts env2 rest
    | Except.error e => Except.error e

/-- Whether a module evaluation completed successfully. -/
def isOkRun (r : Except JSError JSEnv) : Bool :=
  match r with
  | Except.ok _ => true
  | Except.error _ => false

/-- Line 6 of `src/utils/test-lint-fail.js`:
`console.log("测试ESLint错误：未声明变量调用");`. -/
def lintStmt1 : JSStmt :=
  JSStmt.callStmt "console" "log" (JSExpr.strLit "测试ESLint错误：未声明变量调用")

/-- Line 7 of `src/utils/test-lint-fail.js`: `console.log(undefinedVar);`. -/
def lintStmt2 : JSStmt := JSStmt.callStmt "console" "log" (JSExpr.ident "undefinedVar")

/-- The arrow function bound to `normalUtils` (lines 10-13 of
`src/utils/test-lint-fail.js`): `const validVar = "正常变量"; return validVar;`. -/
def normalUtilsFn : ArrowFn := ⟨[("validVar", "正常变量")], "validVar"⟩

/-- Lines 10-13 of `src/utils/test-lint-fail.js`:
`export const normalUtils = () => ...;`. -/
def lintStmt3 : JSStmt := JSStmt.exportConst "normalUtils" (JSExpr.arrow normalUtilsFn)

/-- The executable statements of `src/utils/test-lint-fail.js`, in file order. -/
def lintFileStmts : List JSStmt := [lintStmt1, lintStmt2, lintStmt3]

/-- The host environment a module starts evaluating in: only the `console`
host object is bound; nothing binds `undefinedVar`. -/
def initialModuleEnv : JSEnv := [("console", JSValue.hostConsole)]

/-- Evaluating the lint-failure fixture as a JavaScript module. -/
def lintModuleRun : Except JSError JSEnv := evalStmts initialModuleEnv lintFileStmts

/-- Free identifier references of an expression (an arrow contributes its
`return` identifier only when no local `const` of the body binds it). -/
def exprFreeRefs : JSExpr → List String
  | JSExpr.strLit _ => []
  | JSExpr.ident x => [x]
  | JSExpr.arrow fn =>
    if (fn.localDecls.map Prod.fst).contains fn.returnVar then [] else [fn.returnVar]

/-- Free identifier references of a statement (a call references its object). -/
def stmtFreeRefs : JSStmt → List String
  | JSStmt.callStmt obj _ arg => obj :: exprFreeRefs arg
  | JSStmt.exportConst _ e => exprFreeRefs e

/-- Names a statement declares at module scope. -/
def stmtDecls : JSStmt → List String
  | JSStmt.callStmt _ _ _ => []
  | JSStmt.exportConst x _ => [x]

/-- Names a statement exports. -/
def stmtExports : JSStmt → List String
  | JSStmt.callStmt _ _ _ => []
  | JSStmt.exportConst x _ => [x]

/-- The identifiers a statement list references that no module-scope
declaration and no environment-provided global binds — the references the
linter's `no-undef` rule reports. -/
def moduleUndeclared (stmts : List JSStmt) (globals : List String) : List String :=
  (stmts.map stmtFreeRefs).flatten.filter
    (fun x => !((stmts.map stmtDecls).flatten ++ globals).contains x)

/-- An ES import declaration: the local name it binds, the module specifier it
imports from, whether it is a default import, and its source line. -/
structure ImportDecl where
  binding : String
  fromModule : String
  isDefault : Bool
  line : Nat
deriving DecidableEq

/-- Line 6 of `src/components/test-build-fail.js`:
`import NonExistentComponent from "non-existent-lib";`. -/
def buildImport1 : ImportDecl := ⟨"NonExistentComponent", "non-existent-lib", true, 6⟩

/-- Line 7 of `src/components/test-build-fail.js`:
`import { useState } from "react";`. -/
def buildImport2 : ImportDecl := ⟨"useState", "react", false, 7⟩

/-- The import declarations of `src/components/test-build-fail.js`, in order. -/
def buildFileImports : List ImportDecl := [buildImport1, buildImport2]

/-- The identifier references inside the body of `TestBuildFailComponent`
(`src/components/test-build-fail.js`), each with its source line: `useState`
on line 11, `count` on line 16, `setCount` and `count` on line 17, and
`NonExistentComponent` on line 20. -/
def buildUsageOccurrences : List (String × Nat) :=
  [("useState", 11), ("count", 16), ("setCount", 17), ("count", 17),
   ("NonExistentComponent", 20)]

/-- Modelled from the spec: the project's declared dependency set.  The
`package.json` manifest is not among the provided sources; the spec states
that `react` is a real, declared dependency and that `non-existent-lib` is
guaranteed absent from the declared dependency set. -/
def declaredDependencies : List String := ["react"]

/-- A resolvable JavaScript module, by the names it exports. -/
structure JSModule where
  exportedNames : List String
deriving DecidableEq

/-- Modelled from the spec: the modules resolvable in this project beyond the
bare dependency names of `declaredDependencies`.  The collaborator module
(`sum` utility) "must exist and be resolvable for the Test-Failure Fixture's
passing case to succeed", at the relative specifier the fixture imports. -/
def moduleRegistry : List (String × JSModule) :=
  [("../../src/utils/normal-utils", ⟨["sum"]⟩), ("react", ⟨["useState"]⟩)]

/-- Resolve a module specifier against the registry. -/
def resolveModule (m : String) : Option JSModule :=
  List.lookup m moduleRegistry

/-- Whether a module specifier resolves: either a declared bare dependency or
a module present in the registry. -/
def resolves (m : String) : Bool :=
  declaredDependencies.contains m || (resolveModule m).isSome

/-- The tool category a fixture is engineered to make fail. -/
inductive FailureCategory where
  | build
  | lint
  | testRun
deriving DecidableEq

/-- All three tool categories. -/
def allCategories : List FailureCategory :=
  [FailureCategory.build, FailureCategory.lint, FailureCategory.testRun]

/-- A fixture of the corpus: its file identifier, the tool category it
targets, its import declarations, the identifier references at module scope
that need a binding beyond its imports, the names it declares at module
scope, the globals the consuming tool's environment provides, and its test
cases (empty for non-test files). -/
structure Fixture where
  id : String
  category : FailureCategory
  imports : List ImportDecl
  freeRefs : List String
  decls : List String
  envGlobals : List String
  cases : List TestCase
deriving DecidableEq

/-- The build-failure fixture `src/components/test-build-fail.js`: it imports
`NonExistentComponent` and `useState`, its component body references
`useState` and `NonExistentComponent` beyond its local `count`/`setCount`
bindings, and it declares `TestBuildFailComponent`. -/
def buildFailFixture : Fixture :=
  ⟨"src/components/test-build-fail.js", FailureCategory.build, buildFileImports,
   ["useState", "NonExistentComponent"], ["TestBuildFailComponent"], ["console"], []⟩

/-- The lint-failure fixture `src/utils/test-lint-fail.js`: its references and
declarations are computed from its statement list `lintFileStmts`; the lint
environment provides the `console` global. -/
def lintFailFixture : Fixture :=
  ⟨"src/utils/test-lint-fail.js", FailureCategory.lint, [],
   (lintFileStmts.map stmtFreeRefs).flatten, (lintFileStmts.map stmtDecls).flatten,
   ["console"], []⟩

/-- The test-failure fixture `tests/utils/test-fail.test.js`: it imports `sum`
from the collaborator module and references the runner-provided globals
`test` and `expect` besides `sum`. -/
def testFailFixture : Fixture :=
  ⟨"tests/utils/test-fail.test.js", FailureCategory.testRun,
   [⟨"sum", "../../src/utils/normal-utils", false, 6⟩],
   ["test", "expect", "sum"], [], ["console", "test", "expect"], testFailCases⟩

/-- The fixture corpus: the three fixture files. -/
def corpus : List Fixture := [buildFailFixture, lintFailFixture, testFailFixture]

/-- The build tool's success condition on a fixture: every import resolves. -/
def buildCheck (f : Fixture) : Bool :=
  f.imports.all (fun i => resolves i.fromModule)

/-- The names bound in a fixture at module scope: import bindings, module
declarations, and the tool environment's globals. -/
def boundNames (f : Fixture) : List String :=
  f.imports.map ImportDecl.binding ++ f.decls ++ f.envGlobals

/-- The undeclared references of a fixture, as the linter's `no-undef` rule
computes them. -/
def fixtureUndeclared (f : Fixture) : List String :=
  f.freeRefs.filter (fun x => !(boundNames f).contains x)

/-- The lint tool's success condition on a fixture: no undeclared reference. -/
def lintCheck (f : Fixture) : Bool := fixtureUndeclared f == []

/-- The test runner's success condition on a fixture: every case passes. -/
def testCheck (f : Fixture) : Bool := f.cases.all runCase

/-- The success condition each tool category checks on a fixture. -/
def checkOf : FailureCategory → Fixture → Bool
  | FailureCategory.build, f => buildCheck f
  | FailureCategory.lint, f => lintCheck f
  | FailureCategory.testRun, f => testCheck f

/-- A fixture's unresolvable imports (the build tool's failure triggers). -/
def unresolvedImports (f : Fixture) : List ImportDecl :=
  f.imports.filter (fun i => !resolves i.fromModule)

/-- A fixture's failing test cases (the test runner's failure triggers). -/
def failingCases (f : Fixture) : List TestCase :=
  f.cases.filter (fun c => !runCase c)

/-- How many trigger constructs a fixture holds for its own tool category. -/
def triggerCount (f : Fixture) : Nat :=
  match f.category with
  | FailureCategory.build => (unresolvedImports f).length
  | FailureCategory.lint => (fixtureUndeclared f).length
  | FailureCategory.testRun => (failingCases f).length

/-- The error kind each tool category surfaces when its check fails. -/
inductive ErrorKind where
  | unresolvedDependency
  | undeclaredReference
  | assertionMismatch
deriving DecidableEq

/-- The error kind owned by a tool category. -/
def kindOf : FailureCategory → ErrorKind
  | FailureCategory.build => ErrorKind.unresolvedDependency
  | FailureCategory.lint => ErrorKind.undeclaredReference
  | FailureCategory.testRun => ErrorKind.assertionMismatch

/-- The outcome of one external tool invocation: process exit code and the
failure kind surfaced, if any. -/
structure ToolRun where
  exitCode : Int
  failureKind : Option ErrorKind
deriving DecidableEq

/-- Invoke a tool category on a fixture: the outcome, and the fixture as the
invocation leaves it (fixtures are read-only inputs, never mutated). -/
def invokeTool (c : FailureCategory) (f : Fixture) : ToolRun × Fixture :=
  if checkOf c f then (⟨0, none⟩, f) else (⟨1, some (kindOf c)⟩, f)

/-- Invoke a tool category on a fixture `n` times in sequence, each run
consuming the fixture the previous run left behind, and collect the outcomes. -/
def runRepeatedly (c : FailureCategory) (f : Fixture) : Nat → List ToolRun
  | 0 => []
  | Nat.succ n =>
    (invokeTool c f).fst :: runRepeatedly c (invokeTool c f).snd n

/-- An invocation never mutates its fixture: the fixture an invocation
returns is the one it was given. -/
theorem invokeTool_preserves (c : FailureCategory) (f : Fixture) :
    (invokeTool c f).snd = f := by
  unfold invokeTool
  split <;> rfl

/-- Claim C1: for the test-failure fixture, with the collaborator `sum` being
numeric addition, `sum 1 1 = 2` so the `toBe 3` assertion of case 2 fails and
its diagnostic reports expected `3`, received `2`, while `sum 2 3 = 5` so the
`toBe 5` assertion of case 1 passes. -/
theorem claim_C1_assertion_values :
    sum 1 1 = 2 ∧ toBe (sum 1 1) 3 = false ∧ runCase case2 = false ∧
    caseReport case2 = some (3, 2) ∧
    sum 2 3 = 5 ∧ toBe (sum 2 3) 5 = true ∧ runCase case1 = true ∧
    caseReport case1 = none := by
  decide

/-- Claim C2: the collaborator module is resolvable at the specifier the
test-failure fixture imports (`../../src/utils/normal-utils`), it exports
`sum`, `sum` satisfies the contract `sum a b = a + b` (a pure function of its
two numeric arguments), and consequently the fixture's imports all resolve
and its passing case passes. -/
theorem claim_C2_collaborator_module :
    resolveModule "../../src/utils/normal-utils" = some ⟨["sum"]⟩ ∧
    (JSModule.mk ["sum"]).exportedNames.contains "sum" = true ∧
    (∀ a b : Int, sum a b = a + b) ∧
    buildCheck testFailFixture = true ∧ runCase case1 = true := by
  refine ⟨by decide, by decide, fun a b => rfl, by decide, by decide⟩

/-- Claim C3: every fixture of the corpus fails exactly its own tool
category's check and passes the checks of the two other categories, each
fixture holds exactly one trigger construct, and in particular the
test-failure fixture's imports resolve and lint cleanly — its only failure
trigger is the mismatched assertion of case 2. -/
theorem claim_C3_single_trigger_isolation :
    corpus.all (fun f => !(checkOf f.category f)) = true ∧
    corpus.all (fun f =>
      (allCategories.filter (fun c => c != f.category)).all
        (fun c => checkOf c f)) = true ∧
    corpus.all (fun f => triggerCount f == 1) = true ∧
    buildCheck testFailFixture = true ∧
    lintCheck testFailFixture = true ∧
    failingCases testFailFixture = [case2] := by
  refine ⟨by decide, by decide, by decide, by decide, by decide, by decide⟩

/-- Claim C4: the build-failure fixture imports `non-existent-lib`, which is
absent from the declared dependency set, and also imports the real declared
dependency `react`; the unresolved symbol `NonExistentComponent` is bound at
its import site (line 6) and referenced at a usage site inside the rendered
component (line 20), and the fixture's only unresolvable import is
`non-existent-lib`. -/
theorem claim_C4_build_fixture_imports :
    buildImport1.fromModule = "non-existent-lib" ∧
    declaredDependencies.contains "non-existent-lib" = false ∧
    buildImport2.fromModule = "react" ∧
    declaredDependencies.contains "react" = true ∧
    buildImport1.binding = "NonExistentComponent" ∧ buildImport1.line = 6 ∧
    buildUsageOccurrences.contains ("NonExistentComponent", 20) = true ∧
    (unresolvedImports buildFailFixture).map ImportDecl.fromModule =
      ["non-existent-lib"] := by
  decide

/-- Claim C5: the lint-failure fixture references `undefinedVar`, which no
declaration, parameter or import of the file binds (the file has no imports
at all); the only undeclared reference the `no-undef` analysis finds is
`undefinedVar`; the file exports exactly the one utility `normalUtils`, and
`normalUtils`'s local variable is properly declared (its body has no free
references). -/
theorem claim_C5_lint_fixture_undeclared :
    (lintFileStmts.map stmtFreeRefs).flatten.contains "undefinedVar" = true ∧
    (lintFileStmts.map stmtDecls).flatten.contains "undefinedVar" = false ∧
    lintFailFixture.imports = [] ∧
    moduleUndeclared lintFileStmts ["console"] = ["undefinedVar"] ∧
    (lintFileStmts.map stmtExports).flatten = ["normalUtils"] ∧
    exprFreeRefs (JSExpr.arrow normalUtilsFn) = [] ∧
    (normalUtilsFn.localDecls.map Prod.fst).contains normalUtilsFn.returnVar
      = true := by
  decide

/-- Claim C6: running the test-failure fixture reports exactly 2 cases, of
which exactly 1 passes and exactly 1 fails; each case's report is computed
from that case alone, so a failing case neither aborts nor masks a sibling
case (running any module splits pointwise across its cases). -/
theorem claim_C6_two_cases_one_pass_one_fail :
    (runTestModule testFailCases).length = 2 ∧
    (runTestModule testFailCases).count true = 1 ∧
    (runTestModule testFailCases).count false = 1 ∧
    runTestModule testFailCases = [runCase case1, runCase case2] ∧
    (∀ (pre post : List TestCase) (c : TestCase),
      runTestModule (pre ++ c :: post) =
        runTestModule pre ++ runCase c :: runTestModule post) := by
  refine ⟨by decide, by decide, by decide, by decide, ?_⟩
  intro pre post c
  simp [runTestModule]

/-- Claim C7: tool invocation on a fixture is pure and stateless — invoking a
tool `n` times on an unchanged fixture yields `n` identical outcomes (same
failure kind every run), each run returns its fixture unchanged, and for
every fixture of the corpus the outcome of its own category has a non-zero
exit code and surfaces that category's failure kind. -/
theorem claim_C7_deterministic_idempotent :
    (∀ (c : FailureCategory) (f : Fixture) (n : Nat),
      runRepeatedly c f n = List.replicate n (invokeTool c f).fst) ∧
    corpus.all (fun f => (invokeTool f.category f).fst.exitCode != 0) = true ∧
    corpus.all (fun f =>
      (invokeTool f.category f).fst.failureKind == some (kindOf f.category))
      = true ∧
    corpus.all (fun f => (invokeTool f.category f).snd == f) = true := by
  refine ⟨?_, by decide, by decide, by decide⟩
  intro c f n
  induction n generalizing f with
  | zero => rfl
  | succ n ih =>
      simp only [runRepeatedly, invokeTool_preserves, List.replicate_succ]
      rw [ih f]

/-- Claim C8: every fixture file of the corpus is under 70 lines long. -/
theorem claim_C8_fixture_files_under_70_lines :
    testBuildFailLines.length < 70 ∧ testLintFailLines.length < 70 ∧
    testFailTestLines.length < 70 ∧
    corpusFiles.all (fun ls => decide (ls.length < 70)) = true := by
  decide

/-- Claim C9: every call to `normalUtils` returns the constant string
`正常变量`, whatever the outer environment holds — the function takes no
arguments, reads no external state (the result is the same for every
environment), and its evaluation produces a value and nothing else. -/
theorem claim_C9_normalUtils_constant :
    (∀ env : JSEnv, callArrow env normalUtilsFn
      = Except.ok (JSValue.str "正常变量")) ∧
    callArrow initialModuleEnv normalUtilsFn
      = Except.ok (JSValue.str "正常变量") := by
  exact ⟨fun env => rfl, rfl⟩

/-- Claim C10: evaluating the lint-failure fixture as a JavaScript module
always raises `ReferenceError` at the `undefinedVar` reference of its second
executable statement — the first statement succeeds without changing the
environment, the run of the whole module equals the run of just the first
two statements (so the `export const normalUtils` statement is never
reached and its binding never created), and the module evaluation never
completes successfully. -/
theorem claim_C10_module_eval_reference_error :
    evalJSStmt initialModuleEnv lintStmt1 = Except.ok initialModuleEnv ∧
    evalJSStmt initialModuleEnv lintStmt2 =
      Except.error (JSError.referenceError "undefinedVar") ∧
    lintModuleRun = Except.error (JSError.referenceError "undefinedVar") ∧
    lintModuleRun = evalStmts initialModuleEnv [lintStmt1, lintStmt2] ∧
    isOkRun lintModuleRun = false := by
  exact ⟨rfl, rfl, rfl, rfl, rfl⟩
